import Mathlib

/-!
Shallow embedding of the volatility term-structure core of the Vlab-Tools
repository: the `ImpliedForwardVolCalculator` class (forward variance,
forward volatility, forward-vol matrix) and the
`EventVolatilityExtractor.extract_volatilities` method.

Modelling conventions:
* Python floats are modelled by exact rationals (`ℚ`); quantities whose exact
  value is irrational (numpy square roots) are modelled in `ℝ`.
* `numpy.sqrt` of a negative float returns NaN (it emits a warning, it does
  not raise); NaN-able float results are modelled as `Option ℝ`, with `none`
  standing for NaN.
* The only exception ever raised by the embedded code paths is Python's
  `ValueError("Second expiry must be after first expiry")` from
  `calculate_forward_variance`; fallible functions return `Except VErr _`.
* `datetime.now()` (the hidden clock read used when `trade_date` is omitted)
  is modelled by an explicit `today : Date` parameter.
* `datetime` values (always at midnight in these code paths) are modelled by
  a calendar `Date`; `(d2 - d1).days` is the difference of proleptic
  Gregorian ordinals, exactly as in CPython's `datetime`.
-/

deriving instance DecidableEq for Except

namespace VlabTools

/-- The single exception value raised anywhere in the embedded code:
Python's `ValueError` carrying its message. -/
inductive VErr where
  | valueError (msg : String) : VErr
deriving DecidableEq, Repr

/-- A calendar date (year, month, day), as held by a midnight `datetime`. -/
structure Date where
  year : ℕ
  month : ℕ
  day : ℕ
deriving DecidableEq, Repr

/-- Gregorian leap-year test, as in CPython's `datetime` module. -/
def isLeapYear (y : ℕ) : Bool :=
  y % 4 == 0 && (y % 100 != 0 || y % 400 == 0)

/-- Days in the months preceding month `m` of a non-leap year
(`m` is 1-based). -/
def daysBeforeMonth (m : ℕ) : ℕ :=
  [0, 31, 59, 90, 120, 151, 181, 212, 243, 273, 304, 334].getD (m - 1) 0

/-- Proleptic Gregorian ordinal of a date (day 1 = 0001-01-01), the value
CPython's `date.toordinal()` computes; differences of ordinals are exactly
`(d2 - d1).days` for midnight datetimes. -/
def Date.toOrdinal (d : Date) : ℕ :=
  let y := d.year - 1
  365 * y + y / 4 + y / 400 - y / 100
    + daysBeforeMonth d.month
    + (if 2 < d.month && isLeapYear d.year then 1 else 0)
    + d.day

/-- Embeds `ImpliedForwardVolCalculator._calculate_days_between`:
`(date2 - date1).days` for midnight datetimes, i.e. the signed difference of
proleptic Gregorian ordinals. -/
def calculate_days_between (date1 date2 : Date) : ℤ :=
  (date2.toOrdinal : ℤ) - (date1.toOrdinal : ℤ)

/-- The message of the one `ValueError` raised by
`calculate_forward_variance`. -/
def orderingMsg : String := "Second expiry must be after first expiry"

/-- Embeds `ImpliedForwardVolCalculator.calculate_forward_variance`.
`trade_date = none` models the Python default `trade_date=None`, in which
case the code falls back to `datetime.now()`, modelled by `today`. -/
def calculate_forward_variance (vol1 : ℚ) (date1 : Date) (vol2 : ℚ) (date2 : Date)
    (trade_date : Option Date) (today : Date) : Except VErr ℚ :=
  let v1 := vol1 / 100
  let v2 := vol2 / 100
  let td := trade_date.getD today
  let t1 : ℤ := calculate_days_between td date1
  let t2 : ℤ := calculate_days_between td date2
  if t2 ≤ t1 then Except.error (VErr.valueError orderingMsg)
  else
    let var1 := v1 * v1
    let var2 := v2 * v2
    let total_var1 := var1 * (t1 : ℚ)
    let total_var2 := var2 * (t2 : ℚ)
    Except.ok ((total_var2 - total_var1) / ((t2 : ℚ) - (t1 : ℚ)))

/-- Embeds `numpy.sqrt` on a (rational-valued) float: NaN (`none`) on a
negative argument — numpy emits a RuntimeWarning but raises nothing — and
the real square root otherwise. -/
noncomputable def np_sqrt (x : ℚ) : Option ℝ :=
  if x < 0 then none else some (Real.sqrt (x : ℝ))

/-- Embeds `ImpliedForwardVolCalculator.calculate_forward_vol`:
`np.sqrt(self.calculate_forward_variance(...))`. -/
noncomputable def calculate_forward_vol (vol1 : ℚ) (date1 : Date) (vol2 : ℚ) (date2 : Date)
    (trade_date : Option Date) (today : Date) : Except VErr (Option ℝ) :=
  (calculate_forward_variance vol1 date1 vol2 date2 trade_date today).map np_sqrt

/-- Two-digit zero padding, as `%m` / `%d` in `strftime`. -/
def pad2 (n : ℕ) : String := if n < 10 then "0" ++ toString n else toString n

/-- Four-digit zero padding, as `%Y` in `strftime`. -/
def pad4 (n : ℕ) : String :=
  if n < 10 then "000" ++ toString n
  else if n < 100 then "00" ++ toString n
  else if n < 1000 then "0" ++ toString n
  else toString n

/-- Embeds `expiry.strftime('%Y-%m-%d')`, the label format of the matrix
axes. -/
def Date.strftimeYmd (d : Date) : String :=
  pad4 d.year ++ "-" ++ pad2 d.month ++ "-" ++ pad2 d.day

/-- Embeds the `pandas.DataFrame` returned by `create_forward_vol_matrix`:
row labels, column labels and the float matrix (entries `none` model NaN). -/
structure DataFrame where
  index : List String
  columns : List String
  data : List (List (Option ℝ))

/-- Embeds the assignment `matrix[i][j] = forward_vol` on the numpy array. -/
def setCell (m : List (List (Option ℝ))) (i j : ℕ) (v : Option ℝ) :
    List (List (Option ℝ)) :=
  m.set i ((m.getD i []).set j v)

/-- Reads entry `(i, j)` of the matrix (out-of-range reads default to
`none`; all reads in the theorems below are in range). -/
def getCell (m : List (List (Option ℝ))) (i j : ℕ) : Option ℝ :=
  (m.getD i []).getD j none

/-- The index pairs `(i, j)` visited by the nested loops
`for i in range(n): for j in range(i+1, n):`, in visiting order. -/
def upperPairs (n : ℕ) : List (ℕ × ℕ) :=
  ((List.range n).map
    (fun i => (List.range' (i + 1) (n - (i + 1))).map (fun j => (i, j)))).flatten

/-- Placeholder date for the (never reached) out-of-range list reads in the
matrix fill. -/
def defaultDate : Date := ⟨1, 1, 1⟩

/-- One iteration of the matrix-fill loop body: compute
`calculate_forward_vol(vols[i], expiry_dates[i], vols[j], expiry_dates[j])`
(with no trade date, so the clock default applies) and store it at
`matrix[i][j]`; a raised `ValueError` propagates out of the loop. -/
noncomputable def fillStep (today : Date) (expiries : List Date) (vols : List ℚ)
    (m : List (List (Option ℝ))) (p : ℕ × ℕ) :
    Except VErr (List (List (Option ℝ))) :=
  match calculate_forward_vol (vols.getD p.1 0) (expiries.getD p.1 defaultDate)
      (vols.getD p.2 0) (expiries.getD p.2 defaultDate) none today with
  | Except.error e => Except.error e
  | Except.ok v => Except.ok (setCell m p.1 p.2 v)

/-- Embeds `ImpliedForwardVolCalculator.create_forward_vol_matrix` (the
branch in which the expiries are already datetimes): start from
`np.zeros((n, n))`, fill every `(i, j)` with `i < j`, and wrap the matrix in
a `DataFrame` whose index and columns are the expiry labels in input order. -/
noncomputable def create_forward_vol_matrix (today : Date) (expiries : List Date)
    (vols : List ℚ) : Except VErr DataFrame :=
  let n := expiries.length
  let init : List (List (Option ℝ)) :=
    List.replicate n (List.replicate n (some 0))
  match (upperPairs n).foldlM (fillStep today expiries vols) init with
  | Except.error e => Except.error e
  | Except.ok mat =>
      Except.ok { index := expiries.map Date.strftimeYmd
                  columns := expiries.map Date.strftimeYmd
                  data := mat }

/-- Embeds Python's `round(x, 2)` on a rational-valued float. (CPython uses
round-half-to-even on the binary float; Mathlib's `round` is
round-half-up — the two agree except on exact two-decimal midpoints, which
none of the theorems below touch.) -/
def pyRound2 (x : ℚ) : ℚ := ((round (x * 100) : ℤ) : ℚ) / 100

/-- Embeds Python's `round(x, 2)` on a possibly irrational float value. -/
noncomputable def pyRound2R (x : ℝ) : ℝ := ((round (x * 100) : ℤ) : ℝ) / 100

/-- Embeds the dictionary returned by
`EventVolatilityExtractor.extract_volatilities`. `event_vol` is `Option ℝ`
because `np.sqrt` of a negative move yields NaN, which propagates through
the multiplication and `round`. -/
structure EventDecomposition where
  pre_event_vol : ℚ
  event_vol : Option ℝ
  post_event_vol : ℚ
  total_days : ℤ
  days_to_event : ℤ
  days_after_event : ℤ

/-- Embeds `EventVolatilityExtractor.extract_volatilities` (the dates
already parsed, as `strptime` produces them). The `calendar_model` argument
is accepted, as in the source, with an arbitrary type: the body never reads
it. -/
noncomputable def extract_volatilities {α : Type} (trade_date expiry_date event_date : Date)
    (expiry_atf_vol expected_move_size : ℚ) (calendar_model : α) :
    EventDecomposition :=
  let atf := expiry_atf_vol / 100
  let move := expected_move_size / 100
  let total_days := calculate_days_between trade_date expiry_date
  let days_to_event := calculate_days_between trade_date event_date
  let days_after_event := calculate_days_between event_date expiry_date
  let pre_event_vol := atf * (8 / 10)
  let event_vol : Option ℝ :=
    (np_sqrt (move * 2)).map (fun s => (atf : ℝ) * s)
  let post_event_vol := atf * (9 / 10)
  { pre_event_vol := pyRound2 (pre_event_vol * 100)
    event_vol := event_vol.map (fun x => pyRound2R (x * 100))
    post_event_vol := pyRound2 (post_event_vol * 100)
    total_days := total_days
    days_to_event := days_to_event
    days_after_event := days_after_event }

/-- True when a fallible rational computation returned normally. -/
def isOkQ (e : Except VErr ℚ) : Bool :=
  match e with
  | Except.ok _ => true
  | Except.error _ => false

/-- The value of a normally-returned rational computation (0 on the error
branch, which the theorems using it always exclude). -/
def okValueQ (e : Except VErr ℚ) : ℚ :=
  match e with
  | Except.ok v => v
  | Except.error _ => 0

/-- True when the matrix builder returned a `DataFrame` rather than
raising. -/
def dfIsOk (e : Except VErr DataFrame) : Bool :=
  match e with
  | Except.ok _ => true
  | Except.error _ => false

/-- The row labels of a returned `DataFrame` (empty on the error branch). -/
def dfIndex (e : Except VErr DataFrame) : List String :=
  match e with
  | Except.ok df => df.index
  | Except.error _ => []

/-! Closed forms of `calculate_forward_variance` on its two branches. -/

lemma calculate_forward_variance_err (vol1 vol2 : ℚ) (date1 date2 : Date)
    (trade_date : Option Date) (today : Date)
    (h : calculate_days_between (trade_date.getD today) date2 ≤
         calculate_days_between (trade_date.getD today) date1) :
    calculate_forward_variance vol1 date1 vol2 date2 trade_date today =
      Except.error (VErr.valueError orderingMsg) := by
  simp only [calculate_forward_variance]
  rw [if_pos h]

lemma calculate_forward_variance_ok (vol1 vol2 : ℚ) (date1 date2 : Date)
    (trade_date : Option Date) (today : Date)
    (h : calculate_days_between (trade_date.getD today) date1 <
         calculate_days_between (trade_date.getD today) date2) :
    calculate_forward_variance vol1 date1 vol2 date2 trade_date today =
      Except.ok ((vol2 / 100 * (vol2 / 100) *
          (calculate_days_between (trade_date.getD today) date2 : ℚ) -
        vol1 / 100 * (vol1 / 100) *
          (calculate_days_between (trade_date.getD today) date1 : ℚ)) /
        ((calculate_days_between (trade_date.getD today) date2 : ℚ) -
         (calculate_days_between (trade_date.getD today) date1 : ℚ))) := by
  simp only [calculate_forward_variance]
  rw [if_neg (not_le.mpr h)]

/-- C1: for nonnegative percentage vols and an explicit trade date with
`t1 = days_between(trade_date, date1) < t2 = days_between(trade_date, date2)`,
`calculate_forward_variance` returns normally and its value satisfies the
variance-additivity identity
`fv × (t2 − t1) + (vol1/100)² × t1 = (vol2/100)² × t2` exactly in `ℚ`. -/
theorem forward_variance_reconstruction (vol1 vol2 : ℚ) (date1 date2 trade today : Date)
    (h1 : 0 ≤ vol1) (h2 : 0 ≤ vol2)
    (hlt : calculate_days_between trade date1 < calculate_days_between trade date2) :
    isOkQ (calculate_forward_variance vol1 date1 vol2 date2 (some trade) today) = true ∧
    okValueQ (calculate_forward_variance vol1 date1 vol2 date2 (some trade) today) *
        ((calculate_days_between trade date2 : ℚ) -
          (calculate_days_between trade date1 : ℚ)) +
      (vol1 / 100) ^ 2 * (calculate_days_between trade date1 : ℚ) =
      (vol2 / 100) ^ 2 * (calculate_days_between trade date2 : ℚ) := by
  have hok := calculate_forward_variance_ok vol1 vol2 date1 date2 (some trade) today
    (by simpa using hlt)
  simp only [Option.getD_some] at hok
  rw [hok]
  refine ⟨rfl, ?_⟩
  have hcast : (calculate_days_between trade date1 : ℚ) <
      (calculate_days_between trade date2 : ℚ) := by exact_mod_cast hlt
  have hne : ((calculate_days_between trade date2 : ℚ) -
      (calculate_days_between trade date1 : ℚ)) ≠ 0 := by linarith
  simp only [okValueQ]
  field_simp
  ring

/-- Witness for C1 at the spec's concrete scenario (trade 2024-03-01,
expiries 2024-03-21 and 2024-03-31, vols 40 and 42). -/
theorem forward_variance_reconstruction_witness :
    isOkQ (calculate_forward_variance 40 ⟨2024, 3, 21⟩ 42 ⟨2024, 3, 31⟩
        (some ⟨2024, 3, 1⟩) ⟨2024, 3, 1⟩) = true ∧
    okValueQ (calculate_forward_variance 40 ⟨2024, 3, 21⟩ 42 ⟨2024, 3, 31⟩
        (some ⟨2024, 3, 1⟩) ⟨2024, 3, 1⟩) *
        ((calculate_days_between ⟨2024, 3, 1⟩ ⟨2024, 3, 31⟩ : ℚ) -
          (calculate_days_between ⟨2024, 3, 1⟩ ⟨2024, 3, 21⟩ : ℚ)) +
      ((40 : ℚ) / 100) ^ 2 * (calculate_days_between ⟨2024, 3, 1⟩ ⟨2024, 3, 21⟩ : ℚ) =
      ((42 : ℚ) / 100) ^ 2 * (calculate_days_between ⟨2024, 3, 1⟩ ⟨2024, 3, 31⟩ : ℚ) :=
  forward_variance_reconstruction 40 42 ⟨2024, 3, 21⟩ ⟨2024, 3, 31⟩ ⟨2024, 3, 1⟩
    ⟨2024, 3, 1⟩ (by norm_num) (by norm_num) (by decide)

/-- C2: concrete scenario. With trade date 2024-03-01, the day counts to
2024-03-21 and 2024-03-31 are 20 and 30; `calculate_forward_variance`
with vols 40 and 42 returns exactly 0.2092; `calculate_forward_vol` returns
`√0.2092`, which lies strictly between 0.45735 and 0.45745 and therefore
rounds to 0.4574 (45.74%). -/
theorem forward_vol_concrete_scenario :
    calculate_days_between ⟨2024, 3, 1⟩ ⟨2024, 3, 21⟩ = 20 ∧
    calculate_days_between ⟨2024, 3, 1⟩ ⟨2024, 3, 31⟩ = 30 ∧
    calculate_forward_variance 40 ⟨2024, 3, 21⟩ 42 ⟨2024, 3, 31⟩
        (some ⟨2024, 3, 1⟩) ⟨2024, 3, 1⟩ = Except.ok (2092 / 10000) ∧
    calculate_forward_vol 40 ⟨2024, 3, 21⟩ 42 ⟨2024, 3, 31⟩
        (some ⟨2024, 3, 1⟩) ⟨2024, 3, 1⟩ =
      Except.ok (some (Real.sqrt (2092 / 10000))) ∧
    (45735 / 100000 : ℝ) < Real.sqrt (2092 / 10000) ∧
    Real.sqrt (2092 / 10000) < (45745 / 100000 : ℝ) := by
  have h21 : calculate_days_between ⟨2024, 3, 1⟩ ⟨2024, 3, 21⟩ = 20 := by decide
  have h31 : calculate_days_between ⟨2024, 3, 1⟩ ⟨2024, 3, 31⟩ = 30 := by decide
  have hvar := calculate_forward_variance_ok 40 42 ⟨2024, 3, 21⟩ ⟨2024, 3, 31⟩
    (some ⟨2024, 3, 1⟩) ⟨2024, 3, 1⟩
    (by rw [Option.getD_some, h21, h31]; norm_num)
  rw [Option.getD_some, h21, h31] at hvar
  norm_num at hvar
  have hvar' : calculate_forward_variance 40 ⟨2024, 3, 21⟩ 42 ⟨2024, 3, 31⟩
      (some ⟨2024, 3, 1⟩) ⟨2024, 3, 1⟩ = Except.ok (2092 / 10000) := by
    rw [hvar]; norm_num
  refine ⟨h21, h31, hvar', ?_, ?_, ?_⟩
  · rw [calculate_forward_vol, hvar]
    simp only [Except.map, np_sqrt]
    rw [if_neg (by norm_num)]
    norm_num
  · rw [Real.lt_sqrt (by norm_num)]
    norm_num
  · rw [Real.sqrt_lt' (by norm_num)]
    norm_num

/-- C3 counterexample: with trade date 2024-03-01, `vol1 = 40` at 2024-03-21
and `vol2 = 10` at 2024-03-31 the forward variance is `(0.3 − 3.2)/10 =
−0.29 < 0`, yet `calculate_forward_vol` returns normally with NaN
(`Except.ok none`): no exception of any kind is raised. -/
theorem forward_vol_negative_variance_counterexample :
    calculate_forward_vol 40 ⟨2024, 3, 21⟩ 10 ⟨2024, 3, 31⟩
        (some ⟨2024, 3, 1⟩) ⟨2024, 3, 1⟩ = Except.ok none := by
  have h21 : calculate_days_between ⟨2024, 3, 1⟩ ⟨2024, 3, 21⟩ = 20 := by decide
  have h31 : calculate_days_between ⟨2024, 3, 1⟩ ⟨2024, 3, 31⟩ = 30 := by decide
  have hvar := calculate_forward_variance_ok 40 10 ⟨2024, 3, 21⟩ ⟨2024, 3, 31⟩
    (some ⟨2024, 3, 1⟩) ⟨2024, 3, 1⟩
    (by rw [Option.getD_some, h21, h31]; norm_num)
  rw [Option.getD_some, h21, h31] at hvar
  norm_num at hvar
  rw [calculate_forward_vol, hvar]
  simp only [Except.map, np_sqrt]
  rw [if_pos (by norm_num)]

/-- C3 amended: whenever `calculate_forward_variance` returns a negative
value, `calculate_forward_vol` returns `Except.ok none` — the NaN produced
by `np.sqrt` of a negative float — rather than raising any error. -/
theorem forward_vol_negative_variance_returns_nan (vol1 vol2 : ℚ) (date1 date2 : Date)
    (trade_date : Option Date) (today : Date) (fv : ℚ)
    (hok : calculate_forward_variance vol1 date1 vol2 date2 trade_date today =
      Except.ok fv)
    (hneg : fv < 0) :
    calculate_forward_vol vol1 date1 vol2 date2 trade_date today =
      Except.ok none := by
  rw [calculate_forward_vol, hok]
  simp only [Except.map, np_sqrt]
  rw [if_pos hneg]

/-- Witness for the amended C3: vols 40 and 20 over the same dates give
forward variance `(1.2 − 3.2)/10 = −0.2 < 0` and the NaN result. -/
theorem forward_vol_negative_variance_returns_nan_witness :
    calculate_forward_vol 40 ⟨2024, 3, 21⟩ 20 ⟨2024, 3, 31⟩
        (some ⟨2024, 3, 1⟩) ⟨2024, 3, 1⟩ = Except.ok none :=
  forward_vol_negative_variance_returns_nan 40 20 ⟨2024, 3, 21⟩ ⟨2024, 3, 31⟩
    (some ⟨2024, 3, 1⟩) ⟨2024, 3, 1⟩ (-1 / 5)
    (by
      have h21 : calculate_days_between ⟨2024, 3, 1⟩ ⟨2024, 3, 21⟩ = 20 := by decide
      have h31 : calculate_days_between ⟨2024, 3, 1⟩ ⟨2024, 3, 31⟩ = 30 := by decide
      have hvar := calculate_forward_variance_ok 40 20 ⟨2024, 3, 21⟩ ⟨2024, 3, 31⟩
        (some ⟨2024, 3, 1⟩) ⟨2024, 3, 1⟩
        (by rw [Option.getD_some, h21, h31]; norm_num)
      rw [Option.getD_some, h21, h31] at hvar
      rw [hvar]; norm_num)
    (by norm_num)

/-- C5 counterexample: `calculate_forward_variance` called with the negative
volatility `vol1 = −40` (other inputs as in the spec's scenario) raises
nothing and returns 0.2092 — the percentage-to-decimal conversion performs
no validation at all. -/
theorem negative_vol_not_rejected_counterexample :
    calculate_forward_variance (-40) ⟨2024, 3, 21⟩ 42 ⟨2024, 3, 31⟩
        (some ⟨2024, 3, 1⟩) ⟨2024, 3, 1⟩ = Except.ok (2092 / 10000) := by
  have h21 : calculate_days_between ⟨2024, 3, 1⟩ ⟨2024, 3, 21⟩ = 20 := by decide
  have h31 : calculate_days_between ⟨2024, 3, 1⟩ ⟨2024, 3, 31⟩ = 30 := by decide
  have hvar := calculate_forward_variance_ok (-40) 42 ⟨2024, 3, 21⟩ ⟨2024, 3, 31⟩
    (some ⟨2024, 3, 1⟩) ⟨2024, 3, 1⟩
    (by rw [Option.getD_some, h21, h31]; norm_num)
  rw [Option.getD_some, h21, h31] at hvar
  rw [hvar]; norm_num

/-- C5 amended: the conversion step performs no sign validation; since the
volatilities enter the computation only squared, `calculate_forward_variance`
is unchanged when either volatility is negated (so a negative volatility is
treated exactly like its absolute value, and no error is raised for it). -/
theorem forward_variance_ignores_vol_sign (vol1 vol2 : ℚ) (date1 date2 : Date)
    (trade_date : Option Date) (today : Date) :
    calculate_forward_variance (-vol1) date1 vol2 date2 trade_date today =
      calculate_forward_variance vol1 date1 vol2 date2 trade_date today ∧
    calculate_forward_variance vol1 date1 (-vol2) date2 trade_date today =
      calculate_forward_variance vol1 date1 vol2 date2 trade_date today := by
  constructor <;>
  · simp only [calculate_forward_variance]
    split_ifs with h
    · rfl
    · simp only [Except.ok.injEq]
      ring

/-- C7 counterexample: with trade date 2024-03-10, expiry 2024-03-21 and
event date 2024-03-01 the required ordering `trade < event < expiry` is
violated (the event precedes the trade date), yet `extract_volatilities`
raises nothing and returns a record — with a negative `days_to_event`. -/
theorem event_ordering_not_enforced_counterexample :
    (extract_volatilities ⟨2024, 3, 10⟩ ⟨2024, 3, 21⟩ ⟨2024, 3, 1⟩ 40 5
        ()).total_days = 11 ∧
    (extract_volatilities ⟨2024, 3, 10⟩ ⟨2024, 3, 21⟩ ⟨2024, 3, 1⟩ 40 5
        ()).days_to_event = -9 ∧
    (extract_volatilities ⟨2024, 3, 10⟩ ⟨2024, 3, 21⟩ ⟨2024, 3, 1⟩ 40 5
        ()).days_after_event = 20 :=
  ⟨rfl, rfl, rfl⟩

/-- C7 amended: `extract_volatilities` performs no date-ordering check at
all; even when `trade_date < event_date < expiry_date` fails, the call
returns a record whose day counts are the (possibly negative) signed
calendar-day differences. -/
theorem event_ordering_not_enforced {α : Type} (trade expiry event : Date)
    (atf move : ℚ) (model : α)
    (hviol : ¬(trade.toOrdinal < event.toOrdinal ∧
        event.toOrdinal < expiry.toOrdinal)) :
    (extract_volatilities trade expiry event atf move model).total_days =
      calculate_days_between trade expiry ∧
    (extract_volatilities trade expiry event atf move model).days_to_event =
      calculate_days_between trade event ∧
    (extract_volatilities trade expiry event atf move model).days_after_event =
      calculate_days_between event expiry :=
  ⟨rfl, rfl, rfl⟩

/-- Witness for the amended C7: event on 2024-03-25 after the 2024-03-21
expiry violates the ordering, and the record is still returned with its
signed day counts. -/
theorem event_ordering_not_enforced_witness :
    (extract_volatilities ⟨2024, 3, 1⟩ ⟨2024, 3, 21⟩ ⟨2024, 3, 25⟩ 40 5
        ()).total_days = calculate_days_between ⟨2024, 3, 1⟩ ⟨2024, 3, 21⟩ ∧
    (extract_volatilities ⟨2024, 3, 1⟩ ⟨2024, 3, 21⟩ ⟨2024, 3, 25⟩ 40 5
        ()).days_to_event = calculate_days_between ⟨2024, 3, 1⟩ ⟨2024, 3, 25⟩ ∧
    (extract_volatilities ⟨2024, 3, 1⟩ ⟨2024, 3, 21⟩ ⟨2024, 3, 25⟩ 40 5
        ()).days_after_event = calculate_days_between ⟨2024, 3, 25⟩ ⟨2024, 3, 21⟩ :=
  event_ordering_not_enforced ⟨2024, 3, 1⟩ ⟨2024, 3, 21⟩ ⟨2024, 3, 25⟩ 40 5 ()
    (by decide)

/-- C8: the returned record's day counts are exactly the whole-calendar-day
differences `days(trade, expiry)`, `days(trade, event)` and
`days(event, expiry)`; in particular, for trade 2024-03-01, event 2024-03-10
and expiry 2024-03-21 they are 20, 9 and 11. -/
theorem event_day_counts {α : Type} (trade expiry event : Date) (atf move : ℚ)
    (model : α) :
    ((extract_volatilities trade expiry event atf move model).total_days =
        calculate_days_between trade expiry ∧
      (extract_volatilities trade expiry event atf move model).days_to_event =
        calculate_days_between trade event ∧
      (extract_volatilities trade expiry event atf move model).days_after_event =
        calculate_days_between event expiry) ∧
    ((extract_volatilities ⟨2024, 3, 1⟩ ⟨2024, 3, 21⟩ ⟨2024, 3, 10⟩ atf move
        model).total_days = 20 ∧
      (extract_volatilities ⟨2024, 3, 1⟩ ⟨2024, 3, 21⟩ ⟨2024, 3, 10⟩ atf move
        model).days_to_event = 9 ∧
      (extract_volatilities ⟨2024, 3, 1⟩ ⟨2024, 3, 21⟩ ⟨2024, 3, 10⟩ atf move
        model).days_after_event = 11) :=
  ⟨⟨rfl, rfl, rfl⟩, rfl, rfl, rfl⟩

/-- C10: the returned record is a function of the dates, the volatility and
the move size only; two calls that differ arbitrarily in the
`calendar_model` argument (even in its type) return identical records. -/
theorem calendar_model_irrelevant {α β : Type} (trade expiry event : Date)
    (atf move : ℚ) (m1 : α) (m2 : β) :
    extract_volatilities trade expiry event atf move m1 =
      extract_volatilities trade expiry event atf move m2 :=
  rfl

/-! Access lemmas for the matrix representation. -/

lemma getD_replicate {β : Type} (d a : β) (n i : ℕ) (h : i < n) :
    (List.replicate n a).getD i d = a := by
  simp [List.getD]
  simp [List.get?_eq_getElem?, h]

lemma getD_eq_getElem {β : Type} (l : List β) (d : β) (i : ℕ) (h : i < l.length) :
    l.getD i d = l[i] := by
  simp [List.getD, List.get?_eq_getElem?, List.getElem?_eq_getElem h]

lemma getD_set_ne {β : Type} (l : List β) (d : β) (a : ℕ) (x : β) (i : ℕ)
    (h : a ≠ i) : (l.set a x).getD i d = l.getD i d := by
  simp [List.getD, List.get?_eq_getElem?, List.getElem?_set_ne h]

lemma getD_set_lt {β : Type} (l : List β) (d : β) (i : ℕ) (x : β)
    (h : i < l.length) : (l.set i x).getD i d = x := by
  simp [List.getD, List.get?_eq_getElem?, List.getElem?_set_eq_of_lt x h]

lemma getCell_init (n i j : ℕ) (hi : i < n) (hj : j < n) :
    getCell (List.replicate n (List.replicate n (some (0 : ℝ)))) i j = some 0 := by
  rw [getCell, getD_replicate _ _ _ _ hi, getD_replicate _ _ _ _ hj]

lemma getCell_setCell_ne (m : List (List (Option ℝ))) (a b i j : ℕ)
    (v : Option ℝ) (hne : i ≠ a ∨ j ≠ b) :
    getCell (setCell m a b v) i j = getCell m i j := by
  rcases hne with h | h
  · rw [getCell, getCell, setCell, getD_set_ne _ _ _ _ _ (Ne.symm h)]
  · by_cases hia : i = a
    · subst hia
      by_cases hlen : i < m.length
      · rw [getCell, getCell, setCell, getD_set_lt _ _ _ _ hlen,
          getD_set_ne _ _ _ _ _ (Ne.symm h)]
      · rw [setCell, List.set_eq_of_length_le (Nat.le_of_not_lt hlen)]
    · rw [getCell, getCell, setCell, getD_set_ne _ _ _ _ _ (Ne.symm hia)]

lemma mem_upperPairs (n i j : ℕ) : (i, j) ∈ upperPairs n ↔ i < j ∧ j < n := by
  simp only [upperPairs, List.mem_flatten, List.mem_map, List.mem_range]
  constructor
  · rintro ⟨L, ⟨a, ha, rfl⟩, hmem⟩
    rcases List.mem_map.mp hmem with ⟨b, hb, heq⟩
    obtain ⟨h1, h2⟩ := List.mem_range'_1.mp hb
    cases heq
    exact ⟨h1, by omega⟩
  · rintro ⟨hij, hjn⟩
    exact ⟨_, ⟨i, by omega, rfl⟩,
      List.mem_map.mpr ⟨j, List.mem_range'_1.mpr ⟨hij, by omega⟩, rfl⟩⟩

/-! Behaviour of a single matrix-fill iteration and of the whole fill loop. -/

lemma exceptBindError {β γ : Type} (e : VErr) (g : β → Except VErr γ) :
    (Except.error e >>= g) = Except.error e := rfl

lemma exceptBindOk {β γ : Type} (x : β) (g : β → Except VErr γ) :
    (Except.ok x >>= g) = g x := rfl

lemma fillStep_error (today : Date) (expiries : List Date) (vols : List ℚ)
    (m : List (List (Option ℝ))) (p : ℕ × ℕ)
    (h : calculate_days_between today (expiries.getD p.2 defaultDate) ≤
         calculate_days_between today (expiries.getD p.1 defaultDate)) :
    fillStep today expiries vols m p =
      Except.error (VErr.valueError orderingMsg) := by
  have hv : calculate_forward_vol (vols.getD p.1 0) (expiries.getD p.1 defaultDate)
      (vols.getD p.2 0) (expiries.getD p.2 defaultDate) none today =
      Except.error (VErr.valueError orderingMsg) := by
    rw [calculate_forward_vol,
      calculate_forward_variance_err _ _ _ _ _ _ (by simpa using h)]
    rfl
  simp only [fillStep, hv]

lemma fillStep_ok' (today : Date) (expiries : List Date) (vols : List ℚ)
    (p : ℕ × ℕ)
    (h : calculate_days_between today (expiries.getD p.1 defaultDate) <
         calculate_days_between today (expiries.getD p.2 defaultDate)) :
    ∃ v, ∀ m, fillStep today expiries vols m p =
      Except.ok (setCell m p.1 p.2 v) := by
  have hv : ∃ w, calculate_forward_vol (vols.getD p.1 0) (expiries.getD p.1 defaultDate)
      (vols.getD p.2 0) (expiries.getD p.2 defaultDate) none today = Except.ok w := by
    rw [calculate_forward_vol,
      calculate_forward_variance_ok _ _ _ _ _ _ (by simpa using h)]
    exact ⟨_, rfl⟩
  obtain ⟨w, hw⟩ := hv
  exact ⟨w, fun m => by simp only [fillStep, hw]⟩

lemma fillStep_ok_shape (today : Date) (expiries : List Date) (vols : List ℚ)
    (m : List (List (Option ℝ))) (p : ℕ × ℕ) (m' : List (List (Option ℝ)))
    (h : fillStep today expiries vols m p = Except.ok m') :
    ∃ v, m' = setCell m p.1 p.2 v := by
  unfold fillStep at h
  split at h
  · exact absurd h (by simp)
  · injection h with h2
    exact ⟨_, h2.symm⟩

lemma foldl_fill_error (today : Date) (expiries : List Date) (vols : List ℚ)
    (l : List (ℕ × ℕ)) (acc : List (List (Option ℝ)))
    (hex : ∃ p ∈ l, calculate_days_between today (expiries.getD p.2 defaultDate) ≤
        calculate_days_between today (expiries.getD p.1 defaultDate)) :
    l.foldlM (fillStep today expiries vols) acc =
      Except.error (VErr.valueError orderingMsg) := by
  induction l generalizing acc with
  | nil => simp at hex
  | cons hd tl ih =>
    obtain ⟨p, hp, hple⟩ := hex
    have hcons : (hd :: tl).foldlM (fillStep today expiries vols) acc =
        fillStep today expiries vols acc hd >>= fun b =>
          tl.foldlM (fillStep today expiries vols) b := rfl
    rw [hcons]
    by_cases hhd : calculate_days_between today (expiries.getD hd.2 defaultDate) ≤
        calculate_days_between today (expiries.getD hd.1 defaultDate)
    · rw [fillStep_error today expiries vols acc hd hhd, exceptBindError]
    · push_neg at hhd
      obtain ⟨v, hv⟩ := fillStep_ok' today expiries vols hd hhd
      rw [hv acc, exceptBindOk]
      refine ih _ ⟨p, ?_, hple⟩
      rcases List.mem_cons.mp hp with rfl | hptl
      · exact absurd hple (not_le.mpr hhd)
      · exact hptl

lemma foldl_fill_ok (today : Date) (expiries : List Date) (vols : List ℚ)
    (l : List (ℕ × ℕ)) (acc : List (List (Option ℝ)))
    (hall : ∀ p ∈ l, calculate_days_between today (expiries.getD p.1 defaultDate) <
        calculate_days_between today (expiries.getD p.2 defaultDate)) :
    ∃ r, l.foldlM (fillStep today expiries vols) acc = Except.ok r := by
  induction l generalizing acc with
  | nil => exact ⟨acc, rfl⟩
  | cons hd tl ih =>
    obtain ⟨v, hv⟩ := fillStep_ok' today expiries vols hd
      (hall hd (List.mem_cons_self hd tl))
    have hcons : (hd :: tl).foldlM (fillStep today expiries vols) acc =
        fillStep today expiries vols acc hd >>= fun b =>
          tl.foldlM (fillStep today expiries vols) b := rfl
    rw [hcons, hv acc, exceptBindOk]
    exact ih _ (fun p hp => hall p (List.mem_cons_of_mem hd hp))

lemma foldl_fill_preserve (today : Date) (expiries : List Date) (vols : List ℚ)
    (l : List (ℕ × ℕ)) (acc r : List (List (Option ℝ)))
    (P : List (List (Option ℝ)) → Prop)
    (hl : ∀ p ∈ l, p.1 < p.2)
    (hstep : ∀ m i j v, i < j → P m → P (setCell m i j v))
    (hacc : P acc)
    (hfold : l.foldlM (fillStep today expiries vols) acc = Except.ok r) :
    P r := by
  induction l generalizing acc with
  | nil =>
    have hr : Except.ok acc = Except.ok r := hfold
    injection hr with hr
    rwa [← hr]
  | cons hd tl ih =>
    have hcons : (hd :: tl).foldlM (fillStep today expiries vols) acc =
        fillStep today expiries vols acc hd >>= fun b =>
          tl.foldlM (fillStep today expiries vols) b := rfl
    rw [hcons] at hfold
    cases hres : fillStep today expiries vols acc hd with
    | error e =>
      rw [hres, exceptBindError] at hfold
      exact absurd hfold (by simp)
    | ok m' =>
      rw [hres, exceptBindOk] at hfold
      obtain ⟨v, rfl⟩ := fillStep_ok_shape today expiries vols acc hd m' hres
      exact ih _ (fun p hp => hl p (List.mem_cons_of_mem hd hp))
        (hstep acc hd.1 hd.2 v (hl hd (List.mem_cons_self hd tl)) hacc) hfold

/-- If any upper-triangle pair `(i, j)` of the input has
`days(today, expiries[j]) ≤ days(today, expiries[i])`, the matrix builder
propagates the `ValueError` raised inside `calculate_forward_variance`. -/
lemma create_matrix_pair_error (today : Date) (expiries : List Date)
    (vols : List ℚ) (i j : ℕ) (hij : i < j) (hj : j < expiries.length)
    (hord : calculate_days_between today (expiries.getD j defaultDate) ≤
        calculate_days_between today (expiries.getD i defaultDate)) :
    create_forward_vol_matrix today expiries vols =
      Except.error (VErr.valueError orderingMsg) := by
  have hfold := foldl_fill_error today expiries vols
    (upperPairs expiries.length)
    (List.replicate expiries.length
      (List.replicate expiries.length (some 0)))
    ⟨(i, j), (mem_upperPairs _ i j).mpr ⟨hij, hj⟩, hord⟩
  simp only [create_forward_vol_matrix, hfold]

/-- If the expiries are strictly increasing (by calendar ordinal), every
pairwise forward-vol call succeeds, so the builder returns a `DataFrame`
keyed by the expiry labels in input order. -/
lemma create_matrix_mono_ok (today : Date) (expiries : List Date)
    (vols : List ℚ)
    (hmono : List.Pairwise (fun a b : Date => a.toOrdinal < b.toOrdinal) expiries) :
    dfIsOk (create_forward_vol_matrix today expiries vols) = true ∧
    dfIndex (create_forward_vol_matrix today expiries vols) =
      expiries.map Date.strftimeYmd := by
  have hall : ∀ p ∈ upperPairs expiries.length,
      calculate_days_between today (expiries.getD p.1 defaultDate) <
      calculate_days_between today (expiries.getD p.2 defaultDate) := by
    rintro ⟨i, j⟩ hp
    obtain ⟨hij, hj⟩ := (mem_upperPairs _ i j).mp hp
    have hi : i < expiries.length := lt_trans hij hj
    have hR := (List.pairwise_iff_getElem.mp hmono) i j hi hj hij
    rw [getD_eq_getElem _ _ _ hi, getD_eq_getElem _ _ _ hj]
    simp only [calculate_days_between]
    omega
  obtain ⟨r, hr⟩ := foldl_fill_ok today expiries vols
    (upperPairs expiries.length)
    (List.replicate expiries.length
      (List.replicate expiries.length (some 0))) hall
  simp only [create_forward_vol_matrix, hr]
  exact ⟨rfl, rfl⟩

/-- C4 counterexample: for the list with the duplicate expiry 2024-03-21 at
both positions, the builder raises the ordering `ValueError` coming from
`calculate_forward_variance` (on the duplicate pair `t1 = t2`), not any
duplicate-specific validation error, and returns no matrix. -/
theorem duplicate_dates_counterexample :
    create_forward_vol_matrix ⟨2024, 3, 1⟩ [⟨2024, 3, 21⟩, ⟨2024, 3, 21⟩]
        [40, 40] = Except.error (VErr.valueError orderingMsg) :=
  create_matrix_pair_error ⟨2024, 3, 1⟩ [⟨2024, 3, 21⟩, ⟨2024, 3, 21⟩]
    [40, 40] 0 1 (by decide) (by decide) (by decide)

/-- C4 amended: when two positions `i < j` of the expiry list hold the same
date, the builder fails — but with the `ValueError` "Second expiry must be
after first expiry" raised by the ordering check inside
`calculate_forward_variance` when the duplicate pair is processed (there is
no duplicate-date validation of its own) — and returns no matrix. -/
theorem duplicate_dates_raise_value_error (today : Date) (expiries : List Date)
    (vols : List ℚ) (i j : ℕ) (hij : i < j) (hj : j < expiries.length)
    (hdup : expiries.getD i defaultDate = expiries.getD j defaultDate) :
    create_forward_vol_matrix today expiries vols =
      Except.error (VErr.valueError orderingMsg) :=
  create_matrix_pair_error today expiries vols i j hij hj (by rw [hdup])

/-- Witness for the amended C4: duplicate expiry at positions 0 and 2. -/
theorem duplicate_dates_raise_value_error_witness :
    create_forward_vol_matrix ⟨2024, 3, 1⟩
        [⟨2024, 3, 21⟩, ⟨2024, 3, 31⟩, ⟨2024, 3, 21⟩] [40, 42, 40] =
      Except.error (VErr.valueError orderingMsg) :=
  duplicate_dates_raise_value_error ⟨2024, 3, 1⟩
    [⟨2024, 3, 21⟩, ⟨2024, 3, 31⟩, ⟨2024, 3, 21⟩] [40, 42, 40] 0 2
    (by decide) (by decide) (by decide)

/-- C6 counterexample: the builder does not sort. Presenting the same two
expiries in descending order makes it raise the ordering `ValueError`
(pair (0,1) has `t2 < t1`), while the ascending presentation returns a
matrix keyed by the labels in input order — so the result is not invariant
under permutation of the input list. -/
theorem matrix_not_permutation_invariant :
    create_forward_vol_matrix ⟨2024, 3, 1⟩ [⟨2024, 3, 31⟩, ⟨2024, 3, 21⟩]
        [42, 40] = Except.error (VErr.valueError orderingMsg) ∧
    dfIsOk (create_forward_vol_matrix ⟨2024, 3, 1⟩
        [⟨2024, 3, 21⟩, ⟨2024, 3, 31⟩] [40, 42]) = true ∧
    dfIndex (create_forward_vol_matrix ⟨2024, 3, 1⟩
        [⟨2024, 3, 21⟩, ⟨2024, 3, 31⟩] [40, 42]) =
      ["2024-03-21", "2024-03-31"] := by
  have hok := create_matrix_mono_ok ⟨2024, 3, 1⟩
    [⟨2024, 3, 21⟩, ⟨2024, 3, 31⟩] [40, 42] (by decide)
  refine ⟨create_matrix_pair_error ⟨2024, 3, 1⟩ [⟨2024, 3, 31⟩, ⟨2024, 3, 21⟩]
    [42, 40] 0 1 (by decide) (by decide) (by decide), hok.1, ?_⟩
  rw [hok.2]
  decide

/-- C6 amended: the builder performs no sorting — the returned matrix is
keyed by the expiry labels in the order they were supplied, and input order
is significant: the builder only returns a matrix when the expiry dates are
strictly increasing as supplied (otherwise the first inverted or duplicate
pair raises the ordering `ValueError`). -/
theorem matrix_keyed_by_input_order (today : Date) (expiries : List Date)
    (vols : List ℚ)
    (hmono : List.Pairwise (fun a b : Date => a.toOrdinal < b.toOrdinal) expiries) :
    dfIsOk (create_forward_vol_matrix today expiries vols) = true ∧
    dfIndex (create_forward_vol_matrix today expiries vols) =
      expiries.map Date.strftimeYmd :=
  create_matrix_mono_ok today expiries vols hmono

/-- Witness for the amended C6: two ascending expiries. -/
theorem matrix_keyed_by_input_order_witness :
    dfIsOk (create_forward_vol_matrix ⟨2024, 3, 1⟩
        [⟨2024, 3, 21⟩, ⟨2024, 3, 31⟩] [40, 42]) = true ∧
    dfIndex (create_forward_vol_matrix ⟨2024, 3, 1⟩
        [⟨2024, 3, 21⟩, ⟨2024, 3, 31⟩] [40, 42]) =
      [⟨2024, 3, 21⟩, ⟨2024, 3, 31⟩].map Date.strftimeYmd :=
  matrix_keyed_by_input_order ⟨2024, 3, 1⟩ [⟨2024, 3, 21⟩, ⟨2024, 3, 31⟩]
    [40, 42] (by decide)

/-- C9: in every `DataFrame` the builder returns, every entry `(i, j)` with
`i ≥ j` — the whole diagonal and lower triangle — is exactly the
zero-initialization value `0.0`: the fill loop writes only strictly
upper-triangular cells, so a consumer reading such an entry sees a plain
float `0.0`, indistinguishable from a genuine zero forward volatility. -/
theorem matrix_lower_triangle_zero (today : Date) (expiries : List Date)
    (vols : List ℚ) (df : DataFrame)
    (hok : create_forward_vol_matrix today expiries vols = Except.ok df)
    (i j : ℕ) (hji : j ≤ i) (hi : i < expiries.length) :
    getCell df.data i j = some 0 := by
  revert hok
  cases hfold : (upperPairs expiries.length).foldlM
      (fillStep today expiries vols)
      (List.replicate expiries.length
        (List.replicate expiries.length (some 0))) with
  | error e =>
    intro hok
    rw [create_forward_vol_matrix] at hok
    rw [hfold] at hok
    exact absurd hok (by simp)
  | ok mat =>
    intro hok
    rw [create_forward_vol_matrix] at hok
    rw [hfold] at hok
    have hdata : df.data = mat := by
      injection hok with hok
      rw [← hok]
    rw [hdata]
    have hP := foldl_fill_preserve today expiries vols
      (upperPairs expiries.length) _ mat
      (fun m => ∀ a b : ℕ, b ≤ a → a < expiries.length → getCell m a b = some 0)
      (fun p hp => ((mem_upperPairs _ p.1 p.2).mp (by simpa using hp)).1)
      ?_ ?_ hfold
    · exact hP i j hji hi
    · intro m a b v hab hPm x y hyx hx
      rw [getCell_setCell_ne]
      · exact hPm x y hyx hx
      · by_cases hxa : x = a
        · subst hxa
          exact Or.inr (by omega)
        · exact Or.inl hxa
    · intro a b hba ha
      exact getCell_init _ _ _ ha (lt_of_le_of_lt hba ha)

/-- Witness for C9: a one-expiry input returns the degenerate 1×1 matrix
whose only (diagonal) entry is the zero-initialization value. -/
theorem matrix_lower_triangle_zero_witness :
    getCell [[some (0 : ℝ)]] 0 0 = some 0 :=
  matrix_lower_triangle_zero ⟨2024, 3, 1⟩ [⟨2024, 3, 21⟩] [40]
    ⟨["2024-03-21"], ["2024-03-21"], [[some 0]]⟩ rfl 0 0 (le_refl 0) (by decide)

end VlabTools
